import Mathlib

/-!
Verification development for the lenses-mcp repository.

Shallow embedding of:
  * `LensesWebSocketClient._make_request` (src/lenses_mcp/clients/websocket_client.py)
  * `LensesAPIClient._make_request` (src/lenses_mcp/clients/http_client.py and
    src/api_client.py)
  * `create_environment` (src/lenses_mcp/tools/environments.py and
    src/tools/environments.py)
-/

namespace LensesMCP

/-- JSON values, as produced by Python's `json.loads`.  Objects are modelled as
association lists with first-key-wins lookup (Python dicts have unique keys, so
this is faithful for any value `json.loads` can return). -/
inductive Json where
  | null : Json
  | bool (b : Bool) : Json
  | num (n : Int) : Json
  | str (s : String) : Json
  | arr (xs : List Json) : Json
  | obj (kvs : List (String × Json)) : Json
deriving Repr

/-- First-wins lookup in a JSON object's field list (Python `dict` access). -/
def jlookup (k : String) : List (String × Json) → Option Json
  | [] => none
  | (k', v) :: rest => if k' = k then some v else jlookup k rest

/-- Python truthiness of a JSON value: `not x` is true exactly on these. -/
def Json.falsy : Json → Bool
  | .null => true
  | .bool b => !b
  | .num n => n == 0
  | .str s => s.isEmpty
  | .arr xs => xs.isEmpty
  | .obj kvs => kvs.isEmpty

/-- Python `d.get(key)`: `None` when the receiver is not a dict would raise,
but every caller below has already established the receiver is a dict. -/
def Json.get : Json → String → Option Json
  | .obj kvs, k => jlookup k kvs
  | _, _ => none

/-- One inbound event at a `ws.recv()` suspension point:
either a frame whose text decoded via `json.loads` into `j`, or a fault
(read error, abrupt close, or a payload `json.loads` cannot decode —
each raises an exception at the wait). -/
inductive InFrame where
  | frame (j : Json) : InFrame
  | fault : InFrame
deriving Repr

/-- Result of one call of `LensesWebSocketClient._make_request`:
the Python function either returns the `records` list, returns `None`
(a bare `return`), or raises. -/
inductive SessionResult where
  | records (rs : List Json) : SessionResult
  | noneValue : SessionResult
  | fault : SessionResult
deriving Repr

/-- Python `str.upper()`.  Exact on ASCII (all the frame tags compared by the
source are ASCII); `Char.toUpper` leaves non-ASCII characters unchanged. -/
def pyUpper (s : String) : String :=
  String.mk (s.data.map Char.toUpper)

/-- Models `data["type"].upper()` preparation: the frame must be a dict with a
`"type"` key holding a string; otherwise the subscript / `.upper()` raises
(`TypeError`, `KeyError` or `AttributeError`), which the `except` clause
re-raises. -/
def frameType : Json → Option String
  | .obj kvs =>
    match jlookup "type" kvs with
    | some (.str s) => some s
    | _ => none
  | _ => none

/-- The receive loop of `LensesWebSocketClient._make_request`, folded over the
scripted sequence of inbound events with the accumulated `records` buffer.
An exhausted script models the server closing the connection, which makes the
next `ws.recv()` raise `ConnectionClosed`. -/
def runSession : List InFrame → List Json → SessionResult
  | [], _ => .fault
  | .fault :: _, _ => .fault
  | .frame j :: rest, buf =>
    match frameType j with
    | none => .fault
    | some s =>
      if pyUpper s = "RECORD" then
        match j.get "data" with
        | none => .noneValue
        | some d => if d.falsy then .noneValue else runSession rest (buf ++ [d])
      else if pyUpper s = "END" then
        .records buf
      else if pyUpper s = "ERROR" then
        .records buf
      else
        runSession rest buf

/-- The whole session on a scripted frame sequence: `records` starts empty. -/
def session (script : List InFrame) : SessionResult :=
  runSession script []

/-- The frame written `RECORD{data:d}` in the spec. -/
def recordFrame (d : Json) : InFrame :=
  .frame (.obj [("type", .str "RECORD"), ("data", d)])

/-- The frame written `END` in the spec. -/
def endFrame : InFrame :=
  .frame (.obj [("type", .str "END")])

/-- The frame written `ERROR{...}` in the spec (server-supplied content). -/
def errorFrame (extra : List (String × Json)) : InFrame :=
  .frame (.obj (("type", .str "ERROR") :: extra))

/-- The record `{a:1}`. -/
def objA1 : Json := .obj [("a", .num 1)]

/-- The record `{a:2}`. -/
def objA2 : Json := .obj [("a", .num 2)]

end LensesMCP

namespace LensesMCP

mutual

/-- Python `repr` of a JSON value, as `str` applied to a dict or list renders
its elements.  Only the scalar cases matter to the claims below; the container
cases are included so the rendering is total. -/
def Json.pyRepr : Json → String
  | .null => "None"
  | .bool true => "True"
  | .bool false => "False"
  | .num n => toString n
  | .str s => "\x27" ++ s ++ "\x27"
  | .arr xs => "[" ++ pyReprList xs ++ "]"
  | .obj kvs => "\x7b" ++ pyReprObj kvs ++ "\x7d"

/-- Comma-separated `repr` of list elements. -/
def pyReprList : List Json → String
  | [] => ""
  | [j] => Json.pyRepr j
  | j :: rest => Json.pyRepr j ++ ", " ++ pyReprList rest

/-- Comma-separated `repr` of dict entries. -/
def pyReprObj : List (String × Json) → String
  | [] => ""
  | [kv] => "\x27" ++ kv.1 ++ "\x27: " ++ Json.pyRepr kv.2
  | kv :: rest => "\x27" ++ kv.1 ++ "\x27: " ++ Json.pyRepr kv.2 ++ ", " ++ pyReprObj rest

end

/-- Python `str` of a JSON value, as an f-string renders an interpolated
value: a string renders as itself, everything else as its `repr`. -/
def Json.pyStr : Json → String
  | .str s => s
  | .null => Json.pyRepr .null
  | .bool b => Json.pyRepr (.bool b)
  | .num n => Json.pyRepr (.num n)
  | .arr xs => Json.pyRepr (.arr xs)
  | .obj kvs => Json.pyRepr (.obj kvs)

/-- One HTTP response: status code and the raw body text
(`response.text`; `response.content` is empty exactly when the text is). -/
structure HttpResponse where
  status : Nat
  body : String

/-- Outcome of `client.request(...)`: either a response arrived, or the
request failed at the network level (`httpx.RequestError`, carrying
`str(e)`). -/
inductive RequestOutcome where
  | response (r : HttpResponse) : RequestOutcome
  | requestError (msg : String) : RequestOutcome

/-- Result of one call of `LensesAPIClient._make_request`: a returned JSON
value, a raised `Exception(error_message)` from one of the two handlers, or
an exception that escapes the handlers (only a JSON decode failure on a 2xx
body). -/
inductive ApiResult where
  | ok (j : Json) : ApiResult
  | apiError (msg : String) : ApiResult
  | uncaught (msg : String) : ApiResult

/-- httpx `response.is_success`, the condition under which
`raise_for_status()` does not raise. -/
def is2xx (status : Nat) : Bool :=
  200 ≤ status && status ≤ 299

/-- The value returned for status 204. -/
def acknowledged : Json :=
  .obj [("success", .bool true), ("message", .str "Operation completed successfully")]

/-- The value returned for a 2xx response with an empty body. -/
def emptyOk : Json :=
  .obj [("success", .bool true)]

/-- The fallback error detail built from status and raw body text. -/
def httpFallback (r : HttpResponse) : String :=
  "HTTP " ++ toString r.status ++ ": " ++ r.body

end LensesMCP

namespace LensesMCP

namespace http_client

/-- Embedding of `LensesAPIClient._make_request` from
src/lenses_mcp/clients/http_client.py.  `decode` is the JSON decoder applied
by `response.json()` (`json.loads` on the body text), a parameter of the
model; the method itself never inspects the body except through it.  On a
non-2xx response the handler tries `e.response.json()`: on a dict it takes
`get("title", fallback)`, where the `get` default is the same fallback text
as the one assigned when decoding (or attribute access on a non-dict)
raises. -/
def make_request (decode : String → Option Json) : RequestOutcome → ApiResult
  | .requestError m => .apiError ("Network error: " ++ m)
  | .response r =>
    if r.status = 204 then
      .ok acknowledged
    else if is2xx r.status then
      if r.body = "" then
        .ok emptyOk
      else
        match decode r.body with
        | some j => .ok j
        | none => .uncaught ("2xx body is not valid JSON: " ++ r.body)
    else
      let detail :=
        match decode r.body with
        | some (.obj kvs) =>
          match jlookup "title" kvs with
          | some v => v.pyStr
          | none => httpFallback r
        | _ => httpFallback r
      .apiError ("API request failed: " ++ detail)

end http_client

namespace api_client

/-- Embedding of `LensesAPIClient._make_request` from src/api_client.py.
Identical to the http_client variant except in the non-2xx handler: the
`get("title", ...)` default there is only "HTTP status" without the raw
body text, while the `except` fallback (decode failure, or attribute access
on a non-dict) keeps the "HTTP status: body" form. -/
def make_request (decode : String → Option Json) : RequestOutcome → ApiResult
  | .requestError m => .apiError ("Network error: " ++ m)
  | .response r =>
    if r.status = 204 then
      .ok acknowledged
    else if is2xx r.status then
      if r.body = "" then
        .ok emptyOk
      else
        match decode r.body with
        | some j => .ok j
        | none => .uncaught ("2xx body is not valid JSON: " ++ r.body)
    else
      let detail :=
        match decode r.body with
        | some (.obj kvs) =>
          match jlookup "title" kvs with
          | some v => v.pyStr
          | none => "HTTP " ++ toString r.status
        | _ => httpFallback r
      .apiError ("API request failed: " ++ detail)

end api_client

/-- Python `data if data else None` applied by `_make_request` to its `data`
argument before handing it to httpx: a missing or empty dict sends no JSON
body. -/
def jsonArg (data : Option (List (String × Json))) : Option (List (String × Json)) :=
  match data with
  | some d => if d.isEmpty then none else some d
  | none => none

/-- Python `name.replace("-", "")`: replacing every single-character
occurrence by the empty string is character filtering. -/
def removeHyphens (s : String) : String :=
  String.mk (s.data.filter (fun c => c ≠ '-'))

/-- Python `str.isalnum()`: nonempty and every character alphanumeric.
The embedding uses the ASCII letter and digit classes; Python additionally
accepts non-ASCII Unicode letters and digits, so the embedding is exact on
ASCII strings, which covers every input the claims below evaluate. -/
def pyIsalnum (s : String) : Bool :=
  !s.data.isEmpty && s.data.all (fun c => c.isAlpha || c.isDigit)

/-- Python `str.startswith` for a single-character pattern. -/
def pyStartsWith (s : String) (c : Char) : Bool :=
  s.data.head? = some c

/-- Python `str.endswith` for a single-character pattern. -/
def pyEndsWith (s : String) (c : Char) : Bool :=
  s.data.getLast? = some c

/-- What a Tool Facade operation does on a given argument tuple: either it
raises `ValueError(msg)` locally, before any network access, or it invokes
the transport exactly once with the method, endpoint and JSON body shown. -/
inductive ToolAction where
  | raiseValueError (msg : String) : ToolAction
  | request (method : String) (endpoint : String) (body : List (String × Json)) : ToolAction

/-- The `valid_tiers` list of `create_environment`. -/
def valid_tiers : List String :=
  ["development", "staging", "production"]

/-- Embedding of `create_environment` from
src/lenses_mcp/tools/environments.py (the copy in src/tools/environments.py
is textually identical on these lines).  `display_name` and `metadata` are
`None` by default; Python truthiness makes `if display_name:` skip both
`None` and the empty string, and `if metadata:` skip both `None` and the
empty dict.  `tier` defaults to "development" at the call boundary. -/
def create_environment (name : String) (display_name : Option String)
    (tier : String) (metadata : Option (List (String × Json))) : ToolAction :=
  if name = "" then
    .raiseValueError "Environment name is required"
  else if !pyIsalnum (removeHyphens name) || pyStartsWith name '-'
      || pyEndsWith name '-' || name.length > 63 then
    .raiseValueError
      "Name must be lowercase alphanumeric or hyphens, not start/end with hyphens, max 63 chars"
  else if !valid_tiers.contains tier then
    .raiseValueError "Tier must be one of: development, staging, production"
  else
    let payload : List (String × Json) := [("name", .str name), ("tier", .str tier)]
    let payload := payload ++
      (match display_name with
       | some d => if d = "" then [] else [("display_name", Json.str d)]
       | none => [])
    let payload := payload ++
      (match metadata with
       | some m => if m.isEmpty then [] else [("metadata", Json.obj m)]
       | none => [])
    .request "POST" "/api/v1/environments" payload

/-- The name-validity predicate stated by the spec, written from its words:
lowercase alphanumeric or hyphens, 1 to 63 characters, not starting or
ending with a hyphen.  Used only to compare the spec rule with the source
validation. -/
def specValidName (s : String) : Bool :=
  1 ≤ s.length && s.length ≤ 63
    && s.data.all (fun c => c.isLower || c.isDigit || c = '-')
    && !pyStartsWith s '-' && !pyEndsWith s '-'

/-- Contiguous-sublist test on character lists. -/
def listContainsSub (pat : List Char) : List Char → Bool
  | [] => pat.isEmpty
  | c :: rest => List.isPrefixOf pat (c :: rest) || listContainsSub pat rest

/-- Substring test, used to state that an error message contains a given
text. -/
def strContains (s pat : String) : Bool :=
  listContainsSub pat.data s.data

/-- A frame on which the receive loop keeps waiting for the next frame:
either its type tag uppercases to none of the three recognized tags, or it
is a RECORD frame carrying truthy data (which is appended). -/
def continuesWaiting : InFrame → Bool
  | .fault => false
  | .frame j =>
    match frameType j with
    | none => false
    | some s =>
      if pyUpper s = "RECORD" then
        match j.get "data" with
        | none => false
        | some d => !d.falsy
      else
        decide (pyUpper s ≠ "END" ∧ pyUpper s ≠ "ERROR")

/-- The 404 response of the spec example, with a body that the decoder below
maps to an object whose title is "not found". -/
def resp404 : HttpResponse :=
  ⟨404, "titled404body"⟩

/-- A concrete JSON decoder for the spec example. -/
def decode404 : String → Option Json :=
  fun s =>
    if s = "titled404body" then some (.obj [("title", .str "not found")]) else none

/-- A concrete decoder on which every body fails to decode. -/
def decodeNone : String → Option Json :=
  fun _ => none

/-- A 404 response whose body decodes as a JSON object with no title field. -/
def respNoTitle : HttpResponse :=
  ⟨404, "notitle404body"⟩

/-- A concrete decoder mapping the body above to a titleless object. -/
def decodeNoTitle : String → Option Json :=
  fun s =>
    if s = "notitle404body" then some (.obj [("detail", .str "boom")]) else none

end LensesMCP

namespace LensesMCP

theorem runSession_frame (j : Json) (s : String) (rest : List InFrame)
    (buf : List Json) (hft : frameType j = some s) :
    runSession (.frame j :: rest) buf =
      (if pyUpper s = "RECORD" then
        match j.get "data" with
        | none => .noneValue
        | some d => if d.falsy then .noneValue else runSession rest (buf ++ [d])
      else if pyUpper s = "END" then .records buf
      else if pyUpper s = "ERROR" then .records buf
      else runSession rest buf) := by
  simp [runSession, hft]

theorem runSession_continue (f : InFrame) (hf : continuesWaiting f = true)
    (rest : List InFrame) (buf : List Json) :
    ∃ buf2, runSession (f :: rest) buf = runSession rest buf2 := by
  cases f with
  | fault => simp [continuesWaiting] at hf
  | frame j =>
    cases hft : frameType j with
    | none => simp [continuesWaiting, hft] at hf
    | some s =>
      rw [runSession_frame j s rest buf hft]
      simp only [continuesWaiting, hft] at hf
      by_cases hrec : pyUpper s = "RECORD"
      · rw [if_pos hrec] at hf ⊢
        cases hd : j.get "data" with
        | none => simp [hd] at hf
        | some d =>
          simp only [hd] at hf ⊢
          rw [if_neg (by simp_all)]
          exact ⟨buf ++ [d], rfl⟩
      · rw [if_neg hrec] at hf ⊢
        simp only [decide_eq_true_eq] at hf
        rw [if_neg hf.1, if_neg hf.2]
        exact ⟨buf, rfl⟩

theorem runSession_waiting_prefix (pre : List InFrame)
    (hpre : ∀ f ∈ pre, continuesWaiting f = true) (tail : List InFrame)
    (buf : List Json) :
    ∃ buf2, runSession (pre ++ tail) buf = runSession tail buf2 := by
  induction pre generalizing buf with
  | nil => exact ⟨buf, rfl⟩
  | cons f rest ih =>
    obtain ⟨buf2, hb⟩ :=
      runSession_continue f (hpre f (by simp)) (rest ++ tail) buf
    obtain ⟨buf3, hb3⟩ := ih (fun g hg => hpre g (by simp [hg])) buf2
    exact ⟨buf3, by rw [List.cons_append, hb, hb3]⟩

/-- C1 counterexample.  On the scripted sequence
`[RECORD(data an object with a mapped to 1), RECORD(data empty)]` the session
returns the Python value `None` (a bare `return` in the RECORD branch), not
the Result Buffer `[objA1]` accumulated so far, refuting the claim that the
buffer is returned. -/
theorem c1_empty_data_counterexample :
    session [recordFrame objA1, recordFrame (.obj [])] = SessionResult.noneValue ∧
    SessionResult.noneValue ≠ SessionResult.records [objA1] :=
  ⟨rfl, fun h => SessionResult.noConfusion h⟩

/-- C1 amended.  When a frame whose type uppercases to RECORD arrives with
`data` missing or falsy (in particular an empty object), the session
terminates at once without error, but it returns `None` — no buffer value at
all — discarding the records accumulated so far; on the scripted sequence
`[RECORD(a mapped to 1), RECORD(empty data)]` the session returns `None`. -/
theorem c1_empty_data_returns_none :
    (∀ (j : Json) (s : String) (rest : List InFrame) (buf : List Json),
      frameType j = some s → pyUpper s = "RECORD" →
      (∀ d, j.get "data" = some d → d.falsy = true) →
      runSession (.frame j :: rest) buf = SessionResult.noneValue) ∧
    session [recordFrame objA1, recordFrame (.obj [])] = SessionResult.noneValue := by
  refine ⟨?_, rfl⟩
  intro j s rest buf hft hup hdata
  rw [runSession_frame j s rest buf hft, if_pos hup]
  cases hd : j.get "data" with
  | none => rfl
  | some d => simp [hdata d hd]

/-- C1 amended, witness at a concrete input. -/
theorem c1_empty_data_returns_none_witness :
    runSession [recordFrame (Json.obj [])] [objA1] = SessionResult.noneValue :=
  c1_empty_data_returns_none.1 (.obj [("type", .str "RECORD"), ("data", .obj [])])
    "RECORD" [] [objA1] rfl rfl
    (fun d hd => by
      simp only [Json.get, jlookup] at hd
      simp only [reduceIte] at hd
      cases hd
      rfl)

/-- C3.  A frame whose type uppercases to RECORD and whose data is present
and truthy appends that data to the Result Buffer and continues; a frame
whose type uppercases to END returns the full buffer accumulated to that
point; and on the scripted sequence
`[RECORD(a mapped to 1), RECORD(a mapped to 2), END]` the session returns
exactly `[objA1, objA2]` in arrival order. -/
theorem c3_record_end_order :
    (∀ (j : Json) (s : String) (d : Json) (rest : List InFrame) (buf : List Json),
      frameType j = some s → pyUpper s = "RECORD" →
      j.get "data" = some d → d.falsy = false →
      runSession (.frame j :: rest) buf = runSession rest (buf ++ [d])) ∧
    (∀ (j : Json) (s : String) (rest : List InFrame) (buf : List Json),
      frameType j = some s → pyUpper s = "END" →
      runSession (.frame j :: rest) buf = SessionResult.records buf) ∧
    session [recordFrame objA1, recordFrame objA2, endFrame]
      = SessionResult.records [objA1, objA2] := by
  refine ⟨?_, ?_, rfl⟩
  · intro j s d rest buf hft hup hd hfalsy
    rw [runSession_frame j s rest buf hft, if_pos hup]
    simp [hd, hfalsy]
  · intro j s rest buf hft hup
    rw [runSession_frame j s rest buf hft]
    rw [if_neg (by simp [hup]), if_pos hup]

/-- C3 witness at concrete inputs. -/
theorem c3_record_end_order_witness :
    runSession [recordFrame objA1, endFrame] [] = runSession [endFrame] ([] ++ [objA1]) ∧
    runSession [endFrame] [objA1] = SessionResult.records [objA1] :=
  ⟨c3_record_end_order.1 (.obj [("type", .str "RECORD"), ("data", objA1)])
      "RECORD" objA1 [endFrame] [] rfl rfl rfl rfl,
   c3_record_end_order.2.1 (.obj [("type", .str "END")]) "END" [] [objA1] rfl rfl⟩

/-- C4.  A frame whose type uppercases to ERROR makes the session return the
Result Buffer accumulated to that point as a soft completion — the result is
a returned buffer, never a raised fault — and on the scripted sequence
`[RECORD(a mapped to 1), ERROR(message boom)]` the session returns
`[objA1]`. -/
theorem c4_error_soft_completion :
    (∀ (j : Json) (s : String) (rest : List InFrame) (buf : List Json),
      frameType j = some s → pyUpper s = "ERROR" →
      runSession (.frame j :: rest) buf = SessionResult.records buf ∧
      runSession (.frame j :: rest) buf ≠ SessionResult.fault) ∧
    session [recordFrame objA1, errorFrame [("message", .str "boom")]]
      = SessionResult.records [objA1] := by
  refine ⟨?_, rfl⟩
  intro j s rest buf hft hup
  have h : runSession (.frame j :: rest) buf = SessionResult.records buf := by
    rw [runSession_frame j s rest buf hft]
    rw [if_neg (by simp [hup]), if_neg (by simp [hup]), if_pos hup]
  exact ⟨h, by rw [h]; exact fun hc => SessionResult.noConfusion hc⟩

/-- C4 witness at a concrete input. -/
theorem c4_error_soft_completion_witness :
    runSession [errorFrame []] [objA1] = SessionResult.records [objA1] :=
  (c4_error_soft_completion.1 (.obj [("type", .str "ERROR")]) "ERROR" [] [objA1]
    rfl rfl).1

/-- C5.  A connection-level fault at an active frame wait — a read error or
undecodable payload (`InFrame.fault`), or the connection closing with no
further frame (exhausted script) — after any run of buffer-preserving or
record-appending frames makes the session produce `SessionResult.fault`,
which models the exception re-raised to the caller; `fault` is distinct from
every returned-buffer value, so no partial buffer is ever returned alongside
an error. -/
theorem c5_fault_raises_no_partial_buffer :
    (∀ (pre rest : List InFrame) (buf : List Json),
      (∀ f ∈ pre, continuesWaiting f = true) →
      runSession (pre ++ InFrame.fault :: rest) buf = SessionResult.fault) ∧
    (∀ (pre : List InFrame) (buf : List Json),
      (∀ f ∈ pre, continuesWaiting f = true) →
      runSession pre buf = SessionResult.fault) ∧
    (∀ rs, SessionResult.fault ≠ SessionResult.records rs) := by
  refine ⟨?_, ?_, fun rs h => SessionResult.noConfusion h⟩
  · intro pre rest buf hpre
    obtain ⟨buf2, hb⟩ :=
      runSession_waiting_prefix pre hpre (InFrame.fault :: rest) buf
    rw [hb]; rfl
  · intro pre buf hpre
    obtain ⟨buf2, hb⟩ := runSession_waiting_prefix pre hpre [] buf
    rw [List.append_nil] at hb
    rw [hb]; rfl

/-- C5 witness at a concrete input. -/
theorem c5_fault_raises_no_partial_buffer_witness :
    runSession [recordFrame objA1, InFrame.fault] [] = SessionResult.fault :=
  c5_fault_raises_no_partial_buffer.1 [recordFrame objA1] [] []
    (fun f hf => by
      cases hf with
      | head => rfl
      | tail _ h => cases h)

/-- C6.  Frame handling depends on the type tag only through its uppercase
form: two frames differing only in the case of the type string are handled
identically (so the spellings record, Record and RECORD coincide); and a
frame whose type uppercases to none of RECORD, END or ERROR is discarded,
leaving buffer, state and the rest of the run unchanged. -/
theorem c6_case_insensitive_unknown_dropped :
    (∀ (j : Json) (s : String) (rest : List InFrame) (buf : List Json),
      frameType j = some s →
      pyUpper s ≠ "RECORD" → pyUpper s ≠ "END" → pyUpper s ≠ "ERROR" →
      runSession (.frame j :: rest) buf = runSession rest buf) ∧
    (∀ (s₁ s₂ : String) (kvs : List (String × Json)) (rest : List InFrame)
      (buf : List Json),
      pyUpper s₁ = pyUpper s₂ →
      runSession (.frame (.obj (("type", .str s₁) :: kvs)) :: rest) buf =
        runSession (.frame (.obj (("type", .str s₂) :: kvs)) :: rest) buf) ∧
    (∀ (d : Json) (rest : List InFrame) (buf : List Json),
      runSession (.frame (.obj [("type", .str "record"), ("data", d)]) :: rest) buf
        = runSession (recordFrame d :: rest) buf ∧
      runSession (.frame (.obj [("type", .str "Record"), ("data", d)]) :: rest) buf
        = runSession (recordFrame d :: rest) buf) := by
  have hframe : ∀ (s : String) (kvs : List (String × Json)),
      frameType (.obj (("type", .str s) :: kvs)) = some s := by
    intro s kvs; simp [frameType, jlookup]
  refine ⟨?_, ?_, ?_⟩
  · intro j s rest buf hft h1 h2 h3
    rw [runSession_frame j s rest buf hft, if_neg h1, if_neg h2, if_neg h3]
  · intro s₁ s₂ kvs rest buf hup
    rw [runSession_frame _ s₁ rest buf (hframe s₁ kvs),
      runSession_frame _ s₂ rest buf (hframe s₂ kvs), hup]
    simp [Json.get, jlookup]
  · intro d rest buf
    constructor
    · simp only [recordFrame]
      rw [runSession_frame _ "record" rest buf (hframe "record" [("data", d)]),
        runSession_frame _ "RECORD" rest buf (hframe "RECORD" [("data", d)])]
      rfl
    · simp only [recordFrame]
      rw [runSession_frame _ "Record" rest buf (hframe "Record" [("data", d)]),
        runSession_frame _ "RECORD" rest buf (hframe "RECORD" [("data", d)])]
      rfl

/-- C6 witness at a concrete input. -/
theorem c6_case_insensitive_unknown_dropped_witness :
    runSession [.frame (.obj [("type", .str "STATS")]), endFrame] [objA1]
      = runSession [endFrame] [objA1] :=
  c6_case_insensitive_unknown_dropped.1 (.obj [("type", .str "STATS")]) "STATS"
    [endFrame] [objA1] rfl (by decide) (by decide) (by decide)

/-- C7.  Every non-2xx response raises a single flattened error.  When the
body decodes as a JSON object carrying a title field, the message is
"API request failed: " followed by the rendered title; when title extraction
fails in any way — the body does not decode as JSON, decodes to a non-object,
or decodes to an object with no title field — the message falls back to
"API request failed: HTTP status: raw body"; and on the concrete 404 whose
body decodes with title "not found", the raised message contains
"not found". -/
theorem c7_non2xx_flattened_error :
    (∀ (decode : String → Option Json) (r : HttpResponse),
      is2xx r.status = false →
      (∃ msg, http_client.make_request decode (.response r) = .apiError msg) ∧
      (∀ (kvs : List (String × Json)) (v : Json),
        decode r.body = some (.obj kvs) → jlookup "title" kvs = some v →
        http_client.make_request decode (.response r) =
          .apiError ("API request failed: " ++ v.pyStr)) ∧
      ((decode r.body = none ∨
        (∃ j, decode r.body = some j ∧ ∀ kvs, j ≠ Json.obj kvs) ∨
        (∃ kvs, decode r.body = some (.obj kvs) ∧ jlookup "title" kvs = none)) →
        http_client.make_request decode (.response r) =
          .apiError ("API request failed: " ++ httpFallback r))) ∧
    (http_client.make_request decode404 (.response resp404) =
      .apiError "API request failed: not found" ∧
    strContains "API request failed: not found" "not found" = true) := by
  refine ⟨?_, rfl, by decide⟩
  intro decode r h2xx
  have h204 : ¬r.status = 204 := by
    intro h; rw [h] at h2xx; exact absurd h2xx (by decide)
  have h2xx' : ¬is2xx r.status = true := by simp [h2xx]
  refine ⟨?_, ?_, ?_⟩
  · simp only [http_client.make_request, if_neg h204, if_neg h2xx']
    exact ⟨_, rfl⟩
  · intro kvs v hdec ht
    simp only [http_client.make_request, if_neg h204, if_neg h2xx']
    rw [hdec]
    simp [ht]
  · intro hfail
    simp only [http_client.make_request, if_neg h204, if_neg h2xx']
    rcases hfail with hdec | ⟨j, hdec, hno⟩ | ⟨kvs, hdec, ht⟩
    · rw [hdec]
    · rw [hdec]
      cases j with
      | obj kvs => exact absurd rfl (hno kvs)
      | null => rfl
      | bool b => rfl
      | num n => rfl
      | str s => rfl
      | arr xs => rfl
    · rw [hdec]
      simp [ht]

/-- C7 witness at concrete inputs: the title-extraction success path on the
404 of the spec example, and the fallback path on a 500 whose body fails to
decode. -/
theorem c7_non2xx_flattened_error_witness :
    http_client.make_request decode404 (.response resp404) =
      .apiError ("API request failed: " ++ "not found") ∧
    http_client.make_request decodeNone (.response ⟨500, "oops"⟩) =
      .apiError ("API request failed: " ++ httpFallback ⟨500, "oops"⟩) :=
  ⟨(c7_non2xx_flattened_error.1 decode404 resp404 (by decide)).2.1
      [("title", .str "not found")] (.str "not found") rfl rfl,
   (c7_non2xx_flattened_error.1 decodeNone ⟨500, "oops"⟩ (by decide)).2.2
      (Or.inl rfl)⟩

/-- C8.  A 204 response yields the synthesized acknowledgment and the result
does not depend on the decoder at all (no deserialization is attempted); any
other 2xx response with an empty body yields the minimal synthesized success
value; and a non-204 2xx response with a non-empty body is decoded as JSON
and returned as-is. -/
theorem c8_success_synthesis :
    (∀ (decode decode2 : String → Option Json) (r : HttpResponse),
      r.status = 204 →
      http_client.make_request decode (.response r) = .ok acknowledged ∧
      http_client.make_request decode (.response r) =
        http_client.make_request decode2 (.response r)) ∧
    (∀ (decode : String → Option Json) (r : HttpResponse),
      r.status ≠ 204 → is2xx r.status = true → r.body = "" →
      http_client.make_request decode (.response r) = .ok emptyOk) ∧
    (∀ (decode : String → Option Json) (r : HttpResponse) (j : Json),
      r.status ≠ 204 → is2xx r.status = true → r.body ≠ "" →
      decode r.body = some j →
      http_client.make_request decode (.response r) = .ok j) := by
  refine ⟨?_, ?_, ?_⟩
  · intro decode decode2 r h204
    have h : http_client.make_request decode (.response r) = .ok acknowledged := by
      simp only [http_client.make_request, if_pos h204]
    have h2 : http_client.make_request decode2 (.response r) = .ok acknowledged := by
      simp only [http_client.make_request, if_pos h204]
    exact ⟨h, h.trans h2.symm⟩
  · intro decode r h204 h2xx hbody
    simp only [http_client.make_request, if_neg h204, if_pos h2xx, if_pos hbody]
  · intro decode r j h204 h2xx hbody hdec
    simp only [http_client.make_request, if_neg h204, if_pos h2xx, if_neg hbody]
    rw [hdec]

/-- C8 witness at concrete inputs. -/
theorem c8_success_synthesis_witness :
    http_client.make_request decodeNone (.response ⟨204, ""⟩) = .ok acknowledged ∧
    http_client.make_request decodeNone (.response ⟨200, ""⟩) = .ok emptyOk ∧
    http_client.make_request decode404 (.response ⟨200, "titled404body"⟩) =
      .ok (.obj [("title", .str "not found")]) :=
  ⟨(c8_success_synthesis.1 decodeNone decode404 ⟨204, ""⟩ rfl).1,
   c8_success_synthesis.2.1 decodeNone ⟨200, ""⟩ (by decide) (by decide) rfl,
   c8_success_synthesis.2.2 decode404 ⟨200, "titled404body"⟩
     (.obj [("title", .str "not found")]) (by decide) (by decide) (by decide) rfl⟩

/-- C10 counterexample.  On a 404 response whose body decodes as a JSON
object without a "title" field, the src/api_client.py variant raises
"API request failed: HTTP 404" while the clients/http_client.py variant
raises "API request failed: HTTP 404: notitle404body" — the two
implementations are not extensionally equal. -/
theorem c10_missing_title_counterexample :
    api_client.make_request decodeNoTitle (.response respNoTitle) =
      .apiError "API request failed: HTTP 404" ∧
    http_client.make_request decodeNoTitle (.response respNoTitle) =
      .apiError "API request failed: HTTP 404: notitle404body" ∧
    api_client.make_request decodeNoTitle (.response respNoTitle) ≠
      http_client.make_request decodeNoTitle (.response respNoTitle) := by
  refine ⟨rfl, rfl, fun h => ?_⟩
  have h2 : ApiResult.apiError "API request failed: HTTP 404" =
      ApiResult.apiError "API request failed: HTTP 404: notitle404body" := h
  injection h2 with h3
  exact absurd h3 (by decide)

/-- C10 amended.  The two `_make_request` implementations build identical
requests (their request-construction lines are textually identical) and
return identical results on every outcome — network error, 204, any 2xx, and
any non-2xx whose body fails to decode, decodes to a non-object, or decodes
to an object carrying a "title" field; they differ only on a non-2xx
response whose body decodes as a JSON object with no "title" field, where
the api_client variant omits the raw body text from the fallback message. -/
theorem c10_agreement_off_missing_title :
    ∀ (decode : String → Option Json) (o : RequestOutcome),
      (∀ (r : HttpResponse) (kvs : List (String × Json)),
        o = .response r → is2xx r.status = false →
        decode r.body = some (.obj kvs) → jlookup "title" kvs ≠ none) →
      api_client.make_request decode o = http_client.make_request decode o := by
  intro decode o h
  cases o with
  | requestError m => rfl
  | response r =>
    simp only [api_client.make_request, http_client.make_request]
    by_cases h204 : r.status = 204
    · rw [if_pos h204, if_pos h204]
    · rw [if_neg h204, if_neg h204]
      by_cases h2xx : is2xx r.status = true
      · rw [if_pos h2xx, if_pos h2xx]
      · rw [if_neg h2xx, if_neg h2xx]
        have h2xxf : is2xx r.status = false := by
          cases hb : is2xx r.status with
          | false => rfl
          | true => exact absurd hb h2xx
        cases hdec : decode r.body with
        | none => rfl
        | some j =>
          cases j with
          | obj kvs =>
            cases ht : jlookup "title" kvs with
            | none => exact absurd ht (h r kvs rfl h2xxf hdec)
            | some v => simp [ht]
          | null => rfl
          | bool b => rfl
          | num n => rfl
          | str s => rfl
          | arr xs => rfl

/-- C10 amended, witness at a concrete input. -/
theorem c10_agreement_off_missing_title_witness :
    api_client.make_request decodeNone (.response ⟨404, "x"⟩) =
      http_client.make_request decodeNone (.response ⟨404, "x"⟩) :=
  c10_agreement_off_missing_title decodeNone (.response ⟨404, "x"⟩)
    (fun r kvs ho h2 hdec => by
      simp only [decodeNone] at hdec
      cases hdec)

theorem isLower_isAlpha {c : Char} (h : c.isLower = true) : c.isAlpha = true := by
  simp [Char.isAlpha, h]

/-- C2.  The spec and the source docstring state the same name rule, and the
code accepts every name valid under it; but the `isalnum` check also lets
uppercase names through, so the code does not raise on every invalid name:
on the concrete invalid name ABC, `create_environment` proceeds to the
transport call instead of raising. -/
theorem c2_validator_misses_uppercase :
    (∀ s : String, specValidName s = true →
      create_environment s none "development" none =
        ToolAction.request "POST" "/api/v1/environments"
          [("name", Json.str s), ("tier", Json.str "development")]) ∧
    specValidName "ABC" = false ∧
    create_environment "ABC" none "development" none =
      ToolAction.request "POST" "/api/v1/environments"
        [("name", Json.str "ABC"), ("tier", Json.str "development")] := by
  refine ⟨?_, by decide, rfl⟩
  intro s hs
  simp only [specValidName, Bool.and_eq_true, decide_eq_true_eq, Bool.not_eq_true',
    List.all_eq_true] at hs
  obtain ⟨⟨⟨⟨h1, h2⟩, h3⟩, h4⟩, h5⟩ := hs
  have hne : ¬s = "" := by
    intro h
    rw [h] at h1
    exact absurd h1 (by decide)
  have hdata : s.data ≠ [] := by
    intro h
    rw [String.length, h] at h1
    exact absurd h1 (by decide)
  have halnum : pyIsalnum (removeHyphens s) = true := by
    simp only [pyIsalnum, removeHyphens, Bool.and_eq_true, Bool.not_eq_true',
      List.all_eq_true]
    constructor
    · cases hd : s.data with
      | nil => exact absurd hd hdata
      | cons c cs =>
        have hc : ¬c = '-' := by
          intro hcc
          have hstart : pyStartsWith s '-' = true := by
            simp [pyStartsWith, hd, hcc]
          rw [hstart] at h4
          cases h4
        simp [List.filter, hc]
    · intro c hc
      have hmem := List.mem_of_mem_filter hc
      have hnh := List.of_mem_filter hc
      simp only [decide_eq_true_eq] at hnh
      have := h3 c hmem
      rcases Bool.or_eq_true_iff.mp this with hor | hdash
      · rcases Bool.or_eq_true_iff.mp hor with hl | hd
        · simp [isLower_isAlpha hl]
        · simp [hd]
      · simp only [decide_eq_true_eq] at hdash
        exact absurd hdash hnh
  have hfmt : ¬((!pyIsalnum (removeHyphens s) || pyStartsWith s '-'
      || pyEndsWith s '-' || decide (s.length > 63)) = true) := by
    rw [halnum, h4, h5]
    simp
    omega
  have htier : ¬((!valid_tiers.contains "development") = true) := by decide
  simp only [create_environment, if_neg hne, if_neg hfmt, if_neg htier]
  rfl

/-- C2 witness at a concrete input. -/
theorem c2_validator_misses_uppercase_witness :
    specValidName "abc-1" = true ∧
    create_environment "abc-1" none "development" none =
      ToolAction.request "POST" "/api/v1/environments"
        [("name", Json.str "abc-1"), ("tier", Json.str "development")] :=
  ⟨by decide, c2_validator_misses_uppercase.1 "abc-1" (by decide)⟩

/-- C9 counterexample.  The display_name argument supplied as the empty
string is a supplied optional argument, yet the body built for the transport
carries no display_name field, because the source guards the insertion with
Python truthiness rather than a None test. -/
theorem c9_empty_display_name_counterexample :
    create_environment "env" (some "") "development" none =
      ToolAction.request "POST" "/api/v1/environments"
        [("name", Json.str "env"), ("tier", Json.str "development")] ∧
    jlookup "display_name"
      [("name", Json.str "env"), ("tier", Json.str "development")] = none :=
  ⟨rfl, rfl⟩

/-- C9 amended.  Whenever `create_environment` reaches the transport, the
body it sends always carries the name and tier; it carries a display_name
field exactly when the display_name argument was supplied with a non-empty
(truthy) value, and then with the supplied value; it carries a metadata
field exactly when the metadata argument was supplied with a non-empty
(truthy) dict, and then with the supplied value; unsupplied optional
arguments never contribute a field, and the transport forwards the non-empty
body unchanged. -/
theorem c9_field_presence :
    ∀ (name tier : String) (dn : Option String)
      (md : Option (List (String × Json))) (method endpoint : String)
      (body : List (String × Json)),
      create_environment name dn tier md = .request method endpoint body →
      jsonArg (some body) = some body ∧
      jlookup "name" body = some (.str name) ∧
      jlookup "tier" body = some (.str tier) ∧
      jlookup "display_name" body =
        (match dn with
         | some d => if d = "" then none else some (Json.str d)
         | none => none) ∧
      jlookup "metadata" body =
        (match md with
         | some m => if m.isEmpty then none else some (Json.obj m)
         | none => none) := by
  intro name tier dn md method endpoint body h
  simp only [create_environment] at h
  by_cases hne : name = ""
  · rw [if_pos hne] at h
    exact absurd h (fun hc => ToolAction.noConfusion hc)
  rw [if_neg hne] at h
  by_cases hfmt : (!pyIsalnum (removeHyphens name) || pyStartsWith name '-'
      || pyEndsWith name '-' || decide (name.length > 63)) = true
  · rw [if_pos hfmt] at h
    exact absurd h (fun hc => ToolAction.noConfusion hc)
  rw [if_neg hfmt] at h
  by_cases htier : (!valid_tiers.contains tier) = true
  · rw [if_pos htier] at h
    exact absurd h (fun hc => ToolAction.noConfusion hc)
  rw [if_neg htier] at h
  injection h with hm he hb
  subst hb
  cases dn with
  | none =>
    cases md with
    | none => simp [jsonArg, jlookup]
    | some m =>
      by_cases hm2 : m.isEmpty
      · simp [jsonArg, jlookup, hm2]
      · simp [jsonArg, jlookup, hm2]
  | some d =>
    by_cases hd : d = ""
    · cases md with
      | none => simp [jsonArg, jlookup, hd]
      | some m =>
        by_cases hm2 : m.isEmpty
        · simp [jsonArg, jlookup, hd, hm2]
        · simp [jsonArg, jlookup, hd, hm2]
    · cases md with
      | none => simp [jsonArg, jlookup, hd]
      | some m =>
        by_cases hm2 : m.isEmpty
        · simp [jsonArg, jlookup, hd, hm2]
        · simp [jsonArg, jlookup, hd, hm2]

/-- C9 amended, witness at a concrete input. -/
theorem c9_field_presence_witness :
    jlookup "display_name"
      [("name", Json.str "env"), ("tier", Json.str "development"),
       ("display_name", Json.str "lbl")] = some (Json.str "lbl") ∧
    jlookup "metadata"
      [("name", Json.str "env"), ("tier", Json.str "development"),
       ("display_name", Json.str "lbl")] = none := by
  have h := c9_field_presence "env" "development" (some "lbl") none
    "POST" "/api/v1/environments"
    [("name", Json.str "env"), ("tier", Json.str "development"),
     ("display_name", Json.str "lbl")] rfl
  exact ⟨h.2.2.2.1, h.2.2.2.2⟩

end LensesMCP

